import Mathlib

/-!
# RentFlowCore — shallow embedding and verification

A shallow embedding of the Solidity contract `RentFlowCore` (property
registry, lease lifecycle, maintenance escrow, deposit settlement, USDC
payments) together with an ERC-20 style token ledger model, and proofs of
the specification claims about it.

Modelling conventions:

* Accounts (`Addr`) are natural numbers; `0` is the zero address and
  `contractAddr` is the address of the deployed `RentFlowCore` contract.
* `uint256` values are modelled as `Nat`.  Solidity 0.8 checked arithmetic
  reverts on underflow; every subtraction in the source is guarded by an
  explicit `require` (or, in `checkRentOverdue`, modelled with an explicit
  underflow error), so `Nat` subtraction is exact wherever it is reached.
  Checked addition at `2^256` is not modelled (amounts of that size are
  not reachable through the token ledger's conserved supply).
* Solidity mappings are total functions returning the zero value of the
  struct, exactly as in the EVM: the default `LeaseStatus` is `active`
  (enum value 0) and the default `MaintenanceStatus` is `pending`.
* Every external entry point becomes a function `State → … → Except Err
  State`; a revert is the `Except.error` branch and, per EVM transaction
  semantics, rolls back every state change of the call (`run` keeps the
  pre-state on error).
* `msg.sender` is the explicit `caller` argument, `block.timestamp` the
  explicit `now` argument.
* Events are accumulated (most recent first) in `State.events`.
-/

namespace RentFlow

abbrev Addr := Nat

/-- The address of the deployed `RentFlowCore` contract (`address(this)`). -/
def contractAddr : Addr := 1

/-- ERC-20 token ledger state (the `USDC` collaborator): balances and
allowances (`allowance owner spender`). -/
structure Token where
  balances : Addr → Nat
  allowance : Addr → Addr → Nat

/-- `transferFrom(from, to, amount)` issued by `spender`: succeeds iff the
spender's allowance and the source balance both cover `amount`; debits the
source, credits the destination, and decreases the allowance.  OpenZeppelin
ERC-20 reverts otherwise, which the caller contract observes as failure. -/
def Token.transferFrom (t : Token) (spender src dst amount : Addr) : Option Token :=
  if amount ≤ t.allowance src spender ∧ amount ≤ t.balances src then
    let deb := Function.update t.balances src (t.balances src - amount)
    some { balances := Function.update deb dst (deb dst + amount),
           allowance := Function.update t.allowance src
             (Function.update (t.allowance src) spender (t.allowance src spender - amount)) }
  else none

/-- `transfer(to, amount)` issued by the contract itself: succeeds iff the
contract's balance covers `amount`. -/
def Token.transfer (t : Token) (src dst amount : Nat) : Option Token :=
  if amount ≤ t.balances src then
    let deb := Function.update t.balances src (t.balances src - amount)
    some { t with balances := Function.update deb dst (deb dst + amount) }
  else none

/-- `struct Property`. -/
structure Property where
  owner : Addr
  monthlyRent : Nat
  securityDeposit : Nat
  isActive : Bool
  createdAt : Nat
deriving DecidableEq

/-- The zero value of `Property` (value of an unset mapping slot). -/
instance : Inhabited Property := ⟨⟨0, 0, 0, false, 0⟩⟩

/-- `enum LeaseStatus { Active, Paused, Terminated, Completed }`; the
default (zero) value is `active`. -/
inductive LeaseStatus where
  | active | paused | terminated | completed
deriving DecidableEq

/-- `enum MaintenanceStatus { Pending, Approved, InProgress, Completed,
Rejected }`; the default (zero) value is `pending`. -/
inductive MaintenanceStatus where
  | pending | approved | inProgress | completed | rejected
deriving DecidableEq

/-- `struct Lease`. -/
structure Lease where
  propertyId : Nat
  tenant : Addr
  startDate : Nat
  endDate : Nat
  rentDueDay : Nat
  lastPaymentDate : Nat
  totalPaid : Nat
  status : LeaseStatus
  securityDepositHeld : Nat
deriving DecidableEq

/-- The zero value of `Lease`: note `status = active` (enum value 0). -/
instance : Inhabited Lease := ⟨⟨0, 0, 0, 0, 0, 0, 0, .active, 0⟩⟩

/-- `struct MaintenanceRequest`. -/
structure MaintenanceRequest where
  propertyId : Nat
  requestedBy : Addr
  description : String
  estimatedCost : Nat
  approvedAmount : Nat
  contractor : Addr
  status : MaintenanceStatus
  createdAt : Nat
deriving DecidableEq

/-- The zero value of `MaintenanceRequest`: note `status = pending`. -/
instance : Inhabited MaintenanceRequest := ⟨⟨0, 0, "", 0, 0, 0, .pending, 0⟩⟩

/-- The contract's events. -/
inductive Event where
  | propertyRegistered (propertyId : Nat) (owner : Addr) (monthlyRent : Nat)
  | leaseCreated (leaseId propertyId : Nat) (tenant : Addr)
  | rentPaid (leaseId amount timestamp : Nat)
  | rentOverdue (leaseId daysPastDue : Nat)
  | maintenanceRequested (requestId propertyId estimatedCost : Nat)
  | maintenanceApproved (requestId approvedAmount : Nat) (contractor : Addr)
  | maintenancePaid (requestId amount : Nat) (contractor : Addr)
  | securityDepositReturned (leaseId : Nat) (tenant : Addr) (amount : Nat)
  | aiAgentAuthorized (agent : Addr) (authorized : Bool)
  | maintenanceFundAdded (propertyId amount : Nat)
deriving DecidableEq

/-- Error taxonomy of the specification, plus the Pausable / checked
arithmetic reverts of the implementation. -/
inductive Err where
  | unauthorized
  | invalidInput
  | invalidState
  | limitExceeded
  | insufficientFunds
  | fundsTransferFailed
  | enforcedPause
  | expectedPause
  | arithUnderflow
deriving DecidableEq

/-- Full contract state: token ledger plus every storage variable of
`RentFlowCore`, plus the emitted event log (most recent first). -/
structure State where
  token : Token
  properties : Nat → Property
  leases : Nat → Lease
  maintenanceRequests : Nat → MaintenanceRequest
  ownerProperties : Addr → List Nat
  tenantLeases : Addr → List Nat
  maintenanceFunds : Nat → Nat
  authorizedAIAgents : Addr → Bool
  propertyCounter : Nat
  leaseCounter : Nat
  maintenanceCounter : Nat
  contractOwner : Addr
  pausedFlag : Bool
  events : List Event

/-- `registerProperty(monthlyRent, securityDeposit)` — `whenNotPaused`. -/
def registerProperty (s : State) (caller now monthlyRent securityDeposit : Nat) :
    Except Err State :=
  if s.pausedFlag then .error .enforcedPause
  else if ¬ 0 < monthlyRent then .error .invalidInput
  else if ¬ monthlyRent ≤ securityDeposit then .error .invalidInput
  else .ok { s with
    propertyCounter := s.propertyCounter + 1
    properties := Function.update s.properties s.propertyCounter
      ⟨caller, monthlyRent, securityDeposit, true, now⟩
    ownerProperties := Function.update s.ownerProperties caller
      (s.ownerProperties caller ++ [s.propertyCounter])
    events := .propertyRegistered s.propertyCounter caller monthlyRent :: s.events }

/-- `deactivateProperty(propertyId)` — `onlyPropertyOwner`. -/
def deactivateProperty (s : State) (caller propertyId : Nat) : Except Err State :=
  if ¬ (s.properties propertyId).owner = caller then .error .unauthorized
  else .ok { s with
    properties := Function.update s.properties propertyId
      ({ s.properties propertyId with isActive := false }) }

/-- `createLease(propertyId, tenant, startDate, durationMonths, rentDueDay)`
— `onlyPropertyOwner validProperty`; pulls the security deposit
tenant → contract before storing the lease. -/
def createLease (s : State)
    (caller now propertyId tenant startDate durationMonths rentDueDay : Nat) :
    Except Err State :=
  if ¬ (s.properties propertyId).owner = caller then .error .unauthorized
  else if ¬ (s.properties propertyId).isActive then .error .invalidState
  else if tenant = 0 then .error .invalidInput
  else if ¬ now ≤ startDate then .error .invalidInput
  else if ¬ (0 < durationMonths ∧ durationMonths ≤ 36) then .error .invalidInput
  else if ¬ (1 ≤ rentDueDay ∧ rentDueDay ≤ 28) then .error .invalidInput
  else match s.token.transferFrom contractAddr tenant contractAddr
      (s.properties propertyId).securityDeposit with
    | none => .error .fundsTransferFailed
    | some t =>
      .ok { s with
        token := t
        leaseCounter := s.leaseCounter + 1
        leases := Function.update s.leases s.leaseCounter
          ⟨propertyId, tenant, startDate, startDate + durationMonths * (30 * 86400),
            rentDueDay, 0, 0, .active, (s.properties propertyId).securityDeposit⟩
        tenantLeases := Function.update s.tenantLeases tenant
          (s.tenantLeases tenant ++ [s.leaseCounter])
        events := .leaseCreated s.leaseCounter propertyId tenant :: s.events }

/-- `payRent(leaseId)` — `nonReentrant whenNotPaused`; rent goes directly
tenant → property owner, never through the contract's escrow. -/
def payRent (s : State) (caller now leaseId : Nat) : Except Err State :=
  if s.pausedFlag then .error .enforcedPause
  else if ¬ (s.leases leaseId).status = .active then .error .invalidState
  else if ¬ caller = (s.leases leaseId).tenant then .error .unauthorized
  else if ¬ (s.leases leaseId).startDate ≤ now then .error .invalidState
  else if ¬ now ≤ (s.leases leaseId).endDate then .error .invalidState
  else match s.token.transferFrom contractAddr caller
      (s.properties (s.leases leaseId).propertyId).owner
      (s.properties (s.leases leaseId).propertyId).monthlyRent with
    | none => .error .fundsTransferFailed
    | some t =>
      .ok { s with
        token := t
        leases := Function.update s.leases leaseId
          ({ s.leases leaseId with
              lastPaymentDate := now
              totalPaid := (s.leases leaseId).totalPaid +
                (s.properties (s.leases leaseId).propertyId).monthlyRent })
        events := .rentPaid leaseId
          (s.properties (s.leases leaseId).propertyId).monthlyRent now :: s.events }

/-- `checkRentOverdue(leaseId)` — `onlyAIAgent`; reads the lease and at most
emits a `RentOverdue` event, never writes storage.  The subtraction
`block.timestamp - lastPaymentDate` is checked arithmetic in Solidity 0.8,
modelled by the explicit `arithUnderflow` branch. -/
def checkRentOverdue (s : State) (caller now leaseId : Nat) : Except Err State :=
  if ¬ s.authorizedAIAgents caller then .error .unauthorized
  else if ¬ (s.leases leaseId).status = .active then .error .invalidState
  else if (s.leases leaseId).lastPaymentDate = 0 ∧
      (s.leases leaseId).startDate + 5 * 86400 < now then
    .ok { s with
      events := .rentOverdue leaseId ((now - (s.leases leaseId).startDate) / 86400)
        :: s.events }
  else if 0 < (s.leases leaseId).lastPaymentDate then
    if now < (s.leases leaseId).lastPaymentDate then .error .arithUnderflow
    else if 35 < (now - (s.leases leaseId).lastPaymentDate) / 86400 then
      .ok { s with
        events := .rentOverdue leaseId ((now - (s.leases leaseId).lastPaymentDate) / 86400 - 30)
          :: s.events }
    else .ok s
  else .ok s

/-- `_isTenantOfProperty(user, propertyId)`: linear scan of the user's
lease index for an Active lease on this property. -/
def isTenantOfProperty (s : State) (user : Addr) (propertyId : Nat) : Bool :=
  (s.tenantLeases user).any fun lid =>
    (s.leases lid).propertyId = propertyId ∧ (s.leases lid).status = .active

/-- `requestMaintenance(propertyId, description, estimatedCost)` —
`validProperty`; caller must be the property owner or an active tenant. -/
def requestMaintenance (s : State) (caller now propertyId : Nat)
    (description : String) (estimatedCost : Nat) : Except Err State :=
  if ¬ (s.properties propertyId).isActive then .error .invalidState
  else if ¬ ((s.properties propertyId).owner = caller ∨
      isTenantOfProperty s caller propertyId) then .error .unauthorized
  else if description.length = 0 then .error .invalidInput
  else if ¬ 0 < estimatedCost then .error .invalidInput
  else .ok { s with
    maintenanceCounter := s.maintenanceCounter + 1
    maintenanceRequests := Function.update s.maintenanceRequests s.maintenanceCounter
      ⟨propertyId, caller, description, estimatedCost, 0, 0, .pending, now⟩
    events := .maintenanceRequested s.maintenanceCounter propertyId estimatedCost :: s.events }

/-- `500 * 10**6`: the on-chain auto-approval hard cap. -/
def autoApprovalLimit : Nat := 500 * 10 ^ 6

/-- `approveMaintenance(requestId, approvedAmount, contractor)` —
`onlyAIAgent`; enforces the hard cap `approvedAmount ≤ autoApprovalLimit`. -/
def approveMaintenance (s : State) (caller requestId approvedAmount contractor : Nat) :
    Except Err State :=
  if ¬ s.authorizedAIAgents caller then .error .unauthorized
  else if ¬ (s.maintenanceRequests requestId).status = .pending then .error .invalidState
  else if ¬ 0 < approvedAmount then .error .invalidInput
  else if contractor = 0 then .error .invalidInput
  else if ¬ approvedAmount ≤ autoApprovalLimit then .error .limitExceeded
  else .ok { s with
    maintenanceRequests := Function.update s.maintenanceRequests requestId
      ({ s.maintenanceRequests requestId with
           approvedAmount := approvedAmount
           contractor := contractor
           status := .approved })
    events := .maintenanceApproved requestId approvedAmount contractor :: s.events }

/-- `fundMaintenance(propertyId, amount)` — `onlyPropertyOwner nonReentrant`;
pulls `amount` owner → contract and credits the per-property escrow. -/
def fundMaintenance (s : State) (caller propertyId amount : Nat) : Except Err State :=
  if ¬ (s.properties propertyId).owner = caller then .error .unauthorized
  else if ¬ 0 < amount then .error .invalidInput
  else match s.token.transferFrom contractAddr caller contractAddr amount with
  | none => .error .fundsTransferFailed
  | some t =>
    .ok { s with
      token := t
      maintenanceFunds := Function.update s.maintenanceFunds propertyId
        (s.maintenanceFunds propertyId + amount)
      events := .maintenanceFundAdded propertyId amount :: s.events }

/-- `payMaintenanceContractor(requestId)` — `nonReentrant`; owner-or-agent;
requires the request Approved and the property's escrow to cover the stored
`approvedAmount`; debits the escrow, marks Completed, pays the contractor. -/
def payMaintenanceContractor (s : State) (caller requestId : Nat) : Except Err State :=
  if ¬ (s.maintenanceRequests requestId).status = .approved then .error .invalidState
  else if ¬ (caller = (s.properties (s.maintenanceRequests requestId).propertyId).owner ∨
      s.authorizedAIAgents caller) then .error .unauthorized
  else if ¬ (s.maintenanceRequests requestId).approvedAmount ≤
      s.maintenanceFunds (s.maintenanceRequests requestId).propertyId then
    .error .insufficientFunds
  else match s.token.transfer contractAddr (s.maintenanceRequests requestId).contractor
      (s.maintenanceRequests requestId).approvedAmount with
    | none => .error .fundsTransferFailed
    | some t =>
      .ok { s with
        token := t
        maintenanceFunds := Function.update s.maintenanceFunds
          (s.maintenanceRequests requestId).propertyId
          (s.maintenanceFunds (s.maintenanceRequests requestId).propertyId -
            (s.maintenanceRequests requestId).approvedAmount)
        maintenanceRequests := Function.update s.maintenanceRequests requestId
          ({ s.maintenanceRequests requestId with status := .completed })
        events := .maintenancePaid requestId (s.maintenanceRequests requestId).approvedAmount
          (s.maintenanceRequests requestId).contractor :: s.events }

/-- `returnSecurityDeposit(leaseId, deductionAmount)` — `nonReentrant`;
owner-or-agent; zeroes `securityDepositHeld`, marks the lease Completed and
splits the held deposit between tenant and property owner. -/
def returnSecurityDeposit (s : State) (caller now leaseId deductionAmount : Nat) :
    Except Err State :=
  if ¬ (caller = (s.properties (s.leases leaseId).propertyId).owner ∨
      s.authorizedAIAgents caller) then .error .unauthorized
  else if ¬ ((s.leases leaseId).status = .completed ∨ (s.leases leaseId).endDate < now) then
    .error .invalidState
  else if ¬ deductionAmount ≤ (s.leases leaseId).securityDepositHeld then .error .invalidInput
  else match (if 0 < (s.leases leaseId).securityDepositHeld - deductionAmount then
        s.token.transfer contractAddr (s.leases leaseId).tenant
          ((s.leases leaseId).securityDepositHeld - deductionAmount)
      else some s.token) with
    | none => .error .fundsTransferFailed
    | some t₁ =>
      match (if 0 < deductionAmount then
            t₁.transfer contractAddr (s.properties (s.leases leaseId).propertyId).owner
              deductionAmount
          else some t₁) with
      | none => .error .fundsTransferFailed
      | some t₂ =>
        .ok { s with
          token := t₂
          leases := Function.update s.leases leaseId
            ({ s.leases leaseId with securityDepositHeld := 0, status := .completed })
          events := .securityDepositReturned leaseId (s.leases leaseId).tenant
            ((s.leases leaseId).securityDepositHeld - deductionAmount) :: s.events }

/-- `setAIAgent(agent, authorized)` — `onlyOwner`. -/
def setAIAgent (s : State) (caller agent : Nat) (authorized : Bool) : Except Err State :=
  if ¬ s.contractOwner = caller then .error .unauthorized
  else if agent = 0 then .error .invalidInput
  else .ok { s with
    authorizedAIAgents := Function.update s.authorizedAIAgents agent authorized
    events := .aiAgentAuthorized agent authorized :: s.events }

/-- `pause()` — `onlyOwner`, reverts if already paused (`_pause`). -/
def pause (s : State) (caller : Nat) : Except Err State :=
  if ¬ s.contractOwner = caller then .error .unauthorized
  else if s.pausedFlag then .error .enforcedPause
  else .ok { s with pausedFlag := true }

/-- `unpause()` — `onlyOwner`, reverts if not paused (`_unpause`). -/
def unpause (s : State) (caller : Nat) : Except Err State :=
  if ¬ s.contractOwner = caller then .error .unauthorized
  else if ¬ s.pausedFlag then .error .expectedPause
  else .ok { s with pausedFlag := false }

/-- One external transaction against the contract (or an arbitrary change
of the external token ledger by other token holders). -/
inductive Op where
  | registerProperty (caller now monthlyRent securityDeposit : Nat)
  | deactivateProperty (caller propertyId : Nat)
  | createLease (caller now propertyId tenant startDate durationMonths rentDueDay : Nat)
  | payRent (caller now leaseId : Nat)
  | checkRentOverdue (caller now leaseId : Nat)
  | requestMaintenance (caller now propertyId : Nat) (description : String) (estimatedCost : Nat)
  | approveMaintenance (caller requestId approvedAmount contractor : Nat)
  | fundMaintenance (caller propertyId amount : Nat)
  | payMaintenanceContractor (caller requestId : Nat)
  | returnSecurityDeposit (caller now leaseId deductionAmount : Nat)
  | setAIAgent (caller agent : Nat) (authorized : Bool)
  | pause (caller : Nat)
  | unpause (caller : Nat)
  | externalToken (t : Token)

/-- Execute one transaction: the result of the entry point, or the new
token ledger for an external token-holder action. -/
def exec (s : State) : Op → Except Err State
  | .registerProperty caller now rent dep => registerProperty s caller now rent dep
  | .deactivateProperty caller pid => deactivateProperty s caller pid
  | .createLease caller now pid tenant start dur due =>
      createLease s caller now pid tenant start dur due
  | .payRent caller now lid => payRent s caller now lid
  | .checkRentOverdue caller now lid => checkRentOverdue s caller now lid
  | .requestMaintenance caller now pid descr cost =>
      requestMaintenance s caller now pid descr cost
  | .approveMaintenance caller rid amount contractor =>
      approveMaintenance s caller rid amount contractor
  | .fundMaintenance caller pid amount => fundMaintenance s caller pid amount
  | .payMaintenanceContractor caller rid => payMaintenanceContractor s caller rid
  | .returnSecurityDeposit caller now lid ded => returnSecurityDeposit s caller now lid ded
  | .setAIAgent caller agent auth => setAIAgent s caller agent auth
  | .pause caller => pause s caller
  | .unpause caller => unpause s caller
  | .externalToken t => .ok { s with token := t }

/-- Transaction semantics: a revert rolls the whole transaction back. -/
def run (s : State) (op : Op) : State :=
  match exec s op with
  | .ok s' => s'
  | .error _ => s

/-- `Bool` success test for a transaction result. -/
def execOk (r : Except Err State) : Bool :=
  match r with
  | .ok _ => true
  | .error _ => false

/-- The state right after the constructor ran: all storage zeroed, the
deployer holds the `Ownable` owner capability, and the external token
ledger is in an arbitrary state `tok`. -/
def initState (deployer : Addr) (tok : Token) : State where
  token := tok
  properties := fun _ => default
  leases := fun _ => default
  maintenanceRequests := fun _ => default
  ownerProperties := fun _ => []
  tenantLeases := fun _ => []
  maintenanceFunds := fun _ => 0
  authorizedAIAgents := fun _ => false
  propertyCounter := 0
  leaseCounter := 0
  maintenanceCounter := 0
  contractOwner := deployer
  pausedFlag := false
  events := []

/-- States reachable from deployment by any sequence of transactions. -/
inductive Reachable : State → Prop where
  | init (deployer : Addr) (tok : Token) : Reachable (initState deployer tok)
  | step (s : State) (op : Op) : Reachable s → Reachable (run s op)

/-!
## Concrete scenario fixtures

Account `2` deploys the contract, `3` owns a property, `4` is its tenant,
`5` is an authorized agent, `6` a contractor.  `demoToken` endows tenant
and owner with USDC and an allowance towards the contract.
-/

/-- Demo USDC ledger: tenant `4` and owner `3` each hold 1000 units and
have approved the contract for 1000. -/
def demoToken : Token where
  balances := fun a => if a = 4 then 1000 else if a = 3 then 1000 else 0
  allowance := fun a b =>
    if a = 4 ∧ b = contractAddr then 1000
    else if a = 3 ∧ b = contractAddr then 1000 else 0

/-- Freshly deployed contract (deployer `2`). -/
def dInit : State := initState 2 demoToken

/-- Owner `3` registered property `0` (rent 100, deposit 100). -/
def dProp : State := run dInit (.registerProperty 3 0 100 100)

/-- The deployer authorized agent `5`. -/
def dAgent : State := run dProp (.setAIAgent 2 5 true)

/-- Owner `3` leased property `0` to tenant `4` (lease `0`, 1 month from
time 0); the 100-unit deposit moved tenant → contract. -/
def dLease : State := run dAgent (.createLease 3 0 0 4 0 1 1)

/-- Tenant `4` paid one month of rent at time 0. -/
def dRent : State := run dLease (.payRent 4 0 0)

/-- Tenant `4` paid rent on day 1 (time 86400) instead, so
`lastPaymentDate` is non-zero. -/
def dRentLate : State := run dLease (.payRent 4 86400 0)

/-- Owner `3` settled the deposit of lease `0` (no deduction) after the
lease term: `securityDepositHeld` is now 0 and the lease Completed. -/
def dReturned : State := run dRent (.returnSecurityDeposit 3 2600000 0 0)

/-- The deployer engaged the global pause switch. -/
def dPaused : State := run dAgent (.pause 2)

/-- Owner `3` deactivated property `0` while lease `0` is running. -/
def dDeactivated : State := run dLease (.deactivateProperty 3 0)

/-- Self-lease scenario: owner `3` registered property `0` and leased it
to itself. -/
def selfLease : State := run dProp (.createLease 3 0 0 3 0 1 1)

/-- The owner-tenant `3` paid itself one month of rent. -/
def selfRent : State := run selfLease (.payRent 3 0 0)

/-- Maintenance scenario: owner `3` filed request `0` (cost 150). -/
def mReq : State := run dAgent (.requestMaintenance 3 0 0 "leak" 150)

/-- Agent `5` approved request `0` for 150 to contractor `6`. -/
def mApproved : State := run mReq (.approveMaintenance 5 0 150 6)

/-- Owner `3` funded property `0`'s maintenance escrow with 200. -/
def mFunded : State := run mApproved (.fundMaintenance 3 0 200)

/-- Owner `3` triggered the payout of request `0`. -/
def mPaid : State := run mFunded (.payMaintenanceContractor 3 0)

/-- Phantom-request scenario: agent `5` approved the never-created
request id `0` (`maintenanceCounter` is still 0; the default slot is
Pending, so the call succeeds). -/
def ph1 : State := run dAgent (.approveMaintenance 5 0 100 6)

/-- Owner `3` funded property `0`'s escrow with 100. -/
def ph2 : State := run ph1 (.fundMaintenance 3 0 100)

/-- The phantom request `0` was paid out: its slot is now Completed while
`maintenanceCounter` is still 0. -/
def ph3 : State := run ph2 (.payMaintenanceContractor 3 0)

/-- Owner `3` filed a genuine maintenance request, which is allocated id
`0` and overwrites the Completed phantom slot back to Pending. -/
def ph4 : State := run ph3 (.requestMaintenance 3 0 0 "leak" 150)

/-!
## Token ledger lemmas
-/

/-- A successful `transferFrom` had sufficient allowance and balance. -/
theorem Token.transferFrom_some_le {t t' : Token} {sp src dst a : Nat}
    (h : t.transferFrom sp src dst a = some t') :
    a ≤ t.allowance src sp ∧ a ≤ t.balances src := by
  unfold Token.transferFrom at h
  revert h
  split
  · intro _; assumption
  · intro h; cases h

/-- `transferFrom` leaves third-party balances unchanged. -/
theorem Token.transferFrom_some_balances_other {t t' : Token} {sp src dst a : Nat}
    (h : t.transferFrom sp src dst a = some t') {x : Nat} (hs : x ≠ src) (hd : x ≠ dst) :
    t'.balances x = t.balances x := by
  unfold Token.transferFrom at h
  revert h
  split
  · intro h; injection h with h; subst h
    simp [Function.update, hs, hd]
  · intro h; cases h

/-- `transferFrom` credits a destination distinct from the source by
exactly the amount. -/
theorem Token.transferFrom_some_balances_dst {t t' : Token} {sp src dst a : Nat}
    (h : t.transferFrom sp src dst a = some t') (hne : src ≠ dst) :
    t'.balances dst = t.balances dst + a := by
  unfold Token.transferFrom at h
  revert h
  split
  · intro h; injection h with h; subst h
    simp [Function.update, Ne.symm hne, hne]
  · intro h; cases h

/-- `transferFrom` debits a source distinct from the destination by
exactly the amount (stated additively: no truncation happens). -/
theorem Token.transferFrom_some_balances_src {t t' : Token} {sp src dst a : Nat}
    (h : t.transferFrom sp src dst a = some t') (hne : src ≠ dst) :
    t'.balances src + a = t.balances src := by
  unfold Token.transferFrom at h
  revert h
  split
  · rename_i hc
    intro h; injection h with h; subst h
    simp [Function.update, hne, Nat.sub_add_cancel hc.2]
  · intro h; cases h

/-- A successful `transfer` had sufficient source balance. -/
theorem Token.transfer_some_le {t t' : Token} {src dst a : Nat}
    (h : t.transfer src dst a = some t') : a ≤ t.balances src := by
  unfold Token.transfer at h
  revert h
  split
  · intro _; assumption
  · intro h; cases h

/-- `transfer` leaves third-party balances unchanged. -/
theorem Token.transfer_some_balances_other {t t' : Token} {src dst a : Nat}
    (h : t.transfer src dst a = some t') {x : Nat} (hs : x ≠ src) (hd : x ≠ dst) :
    t'.balances x = t.balances x := by
  unfold Token.transfer at h
  revert h
  split
  · intro h; injection h with h; subst h
    simp [Function.update, hs, hd]
  · intro h; cases h

/-- `transfer` credits a destination distinct from the source by exactly
the amount. -/
theorem Token.transfer_some_balances_dst {t t' : Token} {src dst a : Nat}
    (h : t.transfer src dst a = some t') (hne : src ≠ dst) :
    t'.balances dst = t.balances dst + a := by
  unfold Token.transfer at h
  revert h
  split
  · intro h; injection h with h; subst h
    simp [Function.update, Ne.symm hne, hne]
  · intro h; cases h

/-- `transfer` debits a source distinct from the destination by exactly
the amount. -/
theorem Token.transfer_some_balances_src {t t' : Token} {src dst a : Nat}
    (h : t.transfer src dst a = some t') (hne : src ≠ dst) :
    t'.balances src + a = t.balances src := by
  unfold Token.transfer at h
  revert h
  split
  · rename_i hc
    intro h; injection h with h; subst h
    simp [Function.update, hne, Nat.sub_add_cancel hc]
  · intro h; cases h

/-- `transfer` does not change allowances. -/
theorem Token.transfer_some_allowance {t t' : Token} {src dst a : Nat}
    (h : t.transfer src dst a = some t') : t'.allowance = t.allowance := by
  unfold Token.transfer at h
  revert h
  split
  · intro h; injection h with h; subst h; rfl
  · intro h; cases h

/-!
## Inversion lemmas: what a successful call implies
-/

/-- Successful `payRent`: the contract was not paused, the lease was
Active and in term, the caller was the tenant, and the only state changes
are the rent transfer tenant → property owner, the lease's
`lastPaymentDate`/`totalPaid` update, and the event. -/
theorem payRent_ok {s s' : State} {caller now lid : Nat}
    (h : payRent s caller now lid = .ok s') :
    s.pausedFlag = false ∧
    (s.leases lid).status = .active ∧
    caller = (s.leases lid).tenant ∧
    (s.leases lid).startDate ≤ now ∧ now ≤ (s.leases lid).endDate ∧
    ∃ t, s.token.transferFrom contractAddr caller
        (s.properties (s.leases lid).propertyId).owner
        (s.properties (s.leases lid).propertyId).monthlyRent = some t ∧
      s' = { s with
        token := t
        leases := Function.update s.leases lid
          ({ s.leases lid with
              lastPaymentDate := now
              totalPaid := (s.leases lid).totalPaid +
                (s.properties (s.leases lid).propertyId).monthlyRent })
        events := .rentPaid lid (s.properties (s.leases lid).propertyId).monthlyRent now
          :: s.events } := by
  unfold payRent at h
  revert h
  repeat' split
  all_goals intro h
  all_goals cases h
  all_goals simp_all [not_not, Nat.pos_iff_ne_zero, or_iff_not_imp_left]

/-- Successful `registerProperty`: not paused, positive rent, deposit not
below rent; allocates the next property id and touches nothing else. -/
theorem registerProperty_ok {s s' : State} {caller now rent dep : Nat}
    (h : registerProperty s caller now rent dep = .ok s') :
    s.pausedFlag = false ∧ 0 < rent ∧ rent ≤ dep ∧
    s' = { s with
      propertyCounter := s.propertyCounter + 1
      properties := Function.update s.properties s.propertyCounter
        ⟨caller, rent, dep, true, now⟩
      ownerProperties := Function.update s.ownerProperties caller
        (s.ownerProperties caller ++ [s.propertyCounter])
      events := .propertyRegistered s.propertyCounter caller rent :: s.events } := by
  unfold registerProperty at h
  revert h
  repeat' split
  all_goals intro h
  all_goals cases h
  all_goals simp_all [not_not, Nat.pos_iff_ne_zero, or_iff_not_imp_left]

/-- Successful `deactivateProperty`: caller owns the property; only its
`isActive` flag changes. -/
theorem deactivateProperty_ok {s s' : State} {caller pid : Nat}
    (h : deactivateProperty s caller pid = .ok s') :
    (s.properties pid).owner = caller ∧
    s' = { s with
      properties := Function.update s.properties pid
        ({ s.properties pid with isActive := false }) } := by
  unfold deactivateProperty at h
  revert h
  repeat' split
  all_goals intro h
  all_goals cases h
  all_goals simp_all [not_not, Nat.pos_iff_ne_zero, or_iff_not_imp_left]

/-- Successful `createLease`: all preconditions held, the deposit moved
tenant → contract, and the lease was stored Active with `totalPaid = 0`,
`lastPaymentDate = 0` and `securityDepositHeld` equal to the deposit. -/
theorem createLease_ok {s s' : State} {caller now pid tenant start dur due : Nat}
    (h : createLease s caller now pid tenant start dur due = .ok s') :
    (s.properties pid).owner = caller ∧ (s.properties pid).isActive = true ∧
    tenant ≠ 0 ∧ now ≤ start ∧ (0 < dur ∧ dur ≤ 36) ∧ (1 ≤ due ∧ due ≤ 28) ∧
    ∃ t, s.token.transferFrom contractAddr tenant contractAddr
        (s.properties pid).securityDeposit = some t ∧
      s' = { s with
        token := t
        leaseCounter := s.leaseCounter + 1
        leases := Function.update s.leases s.leaseCounter
          ⟨pid, tenant, start, start + dur * (30 * 86400), due, 0, 0, .active,
            (s.properties pid).securityDeposit⟩
        tenantLeases := Function.update s.tenantLeases tenant
          (s.tenantLeases tenant ++ [s.leaseCounter])
        events := .leaseCreated s.leaseCounter pid tenant :: s.events } := by
  unfold createLease at h
  revert h
  repeat' split
  all_goals intro h
  all_goals cases h
  all_goals simp_all [not_not, Nat.pos_iff_ne_zero, or_iff_not_imp_left]

/-- Successful `requestMaintenance`: property Active, caller authorized,
non-empty description, positive cost; stores the request Pending with
`approvedAmount = 0` and no contractor, at the next counter value. -/
theorem requestMaintenance_ok {s s' : State} {caller now pid : Nat}
    {descr : String} {cost : Nat}
    (h : requestMaintenance s caller now pid descr cost = .ok s') :
    (s.properties pid).isActive = true ∧
    ((s.properties pid).owner = caller ∨ isTenantOfProperty s caller pid = true) ∧
    descr.length ≠ 0 ∧ 0 < cost ∧
    s' = { s with
      maintenanceCounter := s.maintenanceCounter + 1
      maintenanceRequests := Function.update s.maintenanceRequests s.maintenanceCounter
        ⟨pid, caller, descr, cost, 0, 0, .pending, now⟩
      events := .maintenanceRequested s.maintenanceCounter pid cost :: s.events } := by
  unfold requestMaintenance at h
  revert h
  repeat' split
  all_goals intro h
  all_goals cases h
  all_goals simp_all [not_not, Nat.pos_iff_ne_zero, or_iff_not_imp_left]

/-- Successful `approveMaintenance`: caller is an agent, the request was
Pending, the amount positive and within the hard cap, the contractor
non-zero; the request becomes Approved with the stored amount. -/
theorem approveMaintenance_ok {s s' : State} {caller rid amount contractor : Nat}
    (h : approveMaintenance s caller rid amount contractor = .ok s') :
    s.authorizedAIAgents caller = true ∧
    (s.maintenanceRequests rid).status = .pending ∧
    0 < amount ∧ contractor ≠ 0 ∧ amount ≤ autoApprovalLimit ∧
    s' = { s with
      maintenanceRequests := Function.update s.maintenanceRequests rid
        ({ s.maintenanceRequests rid with
             approvedAmount := amount
             contractor := contractor
             status := .approved })
      events := .maintenanceApproved rid amount contractor :: s.events } := by
  unfold approveMaintenance at h
  revert h
  repeat' split
  all_goals intro h
  all_goals cases h
  all_goals simp_all [not_not, Nat.pos_iff_ne_zero, or_iff_not_imp_left]

/-- Successful `fundMaintenance`: caller owns the property, positive
amount, the pull owner → contract succeeded; the per-property escrow is
credited by exactly the amount. -/
theorem fundMaintenance_ok {s s' : State} {caller pid amount : Nat}
    (h : fundMaintenance s caller pid amount = .ok s') :
    (s.properties pid).owner = caller ∧ 0 < amount ∧
    ∃ t, s.token.transferFrom contractAddr caller contractAddr amount = some t ∧
      s' = { s with
        token := t
        maintenanceFunds := Function.update s.maintenanceFunds pid
          (s.maintenanceFunds pid + amount)
        events := .maintenanceFundAdded pid amount :: s.events } := by
  unfold fundMaintenance at h
  revert h
  repeat' split
  all_goals intro h
  all_goals cases h
  all_goals simp_all [not_not, Nat.pos_iff_ne_zero, or_iff_not_imp_left]

/-- Successful `payMaintenanceContractor`: the request was Approved, the
caller the property owner or an agent, the escrow covered the stored
`approvedAmount`; the escrow is debited by exactly that amount and the
request becomes Completed. -/
theorem payMaintenanceContractor_ok {s s' : State} {caller rid : Nat}
    (h : payMaintenanceContractor s caller rid = .ok s') :
    (s.maintenanceRequests rid).status = .approved ∧
    (caller = (s.properties (s.maintenanceRequests rid).propertyId).owner ∨
      s.authorizedAIAgents caller = true) ∧
    (s.maintenanceRequests rid).approvedAmount ≤
      s.maintenanceFunds (s.maintenanceRequests rid).propertyId ∧
    ∃ t, s.token.transfer contractAddr (s.maintenanceRequests rid).contractor
        (s.maintenanceRequests rid).approvedAmount = some t ∧
      s' = { s with
        token := t
        maintenanceFunds := Function.update s.maintenanceFunds
          (s.maintenanceRequests rid).propertyId
          (s.maintenanceFunds (s.maintenanceRequests rid).propertyId -
            (s.maintenanceRequests rid).approvedAmount)
        maintenanceRequests := Function.update s.maintenanceRequests rid
          ({ s.maintenanceRequests rid with status := .completed })
        events := .maintenancePaid rid (s.maintenanceRequests rid).approvedAmount
          (s.maintenanceRequests rid).contractor :: s.events } := by
  unfold payMaintenanceContractor at h
  revert h
  repeat' split
  all_goals intro h
  all_goals cases h
  all_goals simp_all [not_not, Nat.pos_iff_ne_zero, or_iff_not_imp_left]

/-- Successful `returnSecurityDeposit`: caller authorized, lease Completed
or past its end, deduction within the held deposit; both conditional
transfers succeeded, the held deposit is zeroed and the lease Completed. -/
theorem returnSecurityDeposit_ok {s s' : State} {caller now lid ded : Nat}
    (h : returnSecurityDeposit s caller now lid ded = .ok s') :
    (caller = (s.properties (s.leases lid).propertyId).owner ∨
      s.authorizedAIAgents caller = true) ∧
    ((s.leases lid).status = .completed ∨ (s.leases lid).endDate < now) ∧
    ded ≤ (s.leases lid).securityDepositHeld ∧
    ∃ t₁ t₂,
      (if 0 < (s.leases lid).securityDepositHeld - ded then
        s.token.transfer contractAddr (s.leases lid).tenant
          ((s.leases lid).securityDepositHeld - ded)
      else some s.token) = some t₁ ∧
      (if 0 < ded then
        t₁.transfer contractAddr (s.properties (s.leases lid).propertyId).owner ded
      else some t₁) = some t₂ ∧
      s' = { s with
        token := t₂
        leases := Function.update s.leases lid
          ({ s.leases lid with securityDepositHeld := 0, status := .completed })
        events := .securityDepositReturned lid (s.leases lid).tenant
          ((s.leases lid).securityDepositHeld - ded) :: s.events } := by
  unfold returnSecurityDeposit at h
  revert h
  repeat' split
  all_goals intro h
  all_goals cases h
  all_goals simp_all [not_not, Nat.pos_iff_ne_zero, or_iff_not_imp_left]

/-- Successful `setAIAgent`: caller is the contract owner and the agent
non-zero; only the agent set (and the log) changes. -/
theorem setAIAgent_ok {s s' : State} {caller agent : Nat} {auth : Bool}
    (h : setAIAgent s caller agent auth = .ok s') :
    s.contractOwner = caller ∧ agent ≠ 0 ∧
    s' = { s with
      authorizedAIAgents := Function.update s.authorizedAIAgents agent auth
      events := .aiAgentAuthorized agent auth :: s.events } := by
  unfold setAIAgent at h
  revert h
  repeat' split
  all_goals intro h
  all_goals cases h
  all_goals simp_all [not_not, Nat.pos_iff_ne_zero, or_iff_not_imp_left]

/-- Successful `pause`: owner-only; only the paused flag changes. -/
theorem pause_ok {s s' : State} {caller : Nat}
    (h : pause s caller = .ok s') :
    s.contractOwner = caller ∧ s.pausedFlag = false ∧
    s' = { s with pausedFlag := true } := by
  unfold pause at h
  revert h
  repeat' split
  all_goals intro h
  all_goals cases h
  all_goals simp_all [not_not, Nat.pos_iff_ne_zero, or_iff_not_imp_left]

/-- Successful `unpause`: owner-only; only the paused flag changes. -/
theorem unpause_ok {s s' : State} {caller : Nat}
    (h : unpause s caller = .ok s') :
    s.contractOwner = caller ∧ s.pausedFlag = true ∧
    s' = { s with pausedFlag := false } := by
  unfold unpause at h
  revert h
  repeat' split
  all_goals intro h
  all_goals cases h
  all_goals simp_all [not_not, Nat.pos_iff_ne_zero, or_iff_not_imp_left]

/-- Successful `checkRentOverdue`: caller is an agent, the lease record is
Active, and the resulting state is the old one except possibly one new
`RentOverdue` event. -/
theorem checkRentOverdue_ok {s s' : State} {caller now lid : Nat}
    (h : checkRentOverdue s caller now lid = .ok s') :
    s.authorizedAIAgents caller = true ∧ (s.leases lid).status = .active ∧
    (s' = s ∨ ∃ d, s' = { s with events := .rentOverdue lid d :: s.events }) := by
  unfold checkRentOverdue at h
  revert h
  repeat' split
  all_goals intro h
  all_goals cases h
  all_goals simp_all [not_not, Nat.pos_iff_ne_zero, or_iff_not_imp_left]

/-!
## Storage invariants
-/

/-- Every Pending maintenance request (including the default value of any
unset slot) has `approvedAmount = 0` and no contractor. -/
def PendingZero (s : State) : Prop :=
  ∀ id, (s.maintenanceRequests id).status = .pending →
    (s.maintenanceRequests id).approvedAmount = 0 ∧
    (s.maintenanceRequests id).contractor = 0

/-- `PendingZero` is preserved by every transaction. -/
theorem pendingZero_run (s : State) (op : Op) (h : PendingZero s) :
    PendingZero (run s op) := by
  cases hex : exec s op with
  | error e => simpa [run, hex] using h
  | ok s' =>
    have hrun : run s op = s' := by simp [run, hex]
    rw [hrun]
    cases op with
    | registerProperty caller now rent dep =>
      obtain ⟨-, -, -, rfl⟩ := registerProperty_ok hex
      exact h
    | deactivateProperty caller pid =>
      obtain ⟨-, rfl⟩ := deactivateProperty_ok hex
      exact h
    | createLease caller now pid tenant start dur due =>
      obtain ⟨-, -, -, -, -, -, t, -, rfl⟩ := createLease_ok hex
      exact h
    | payRent caller now lid =>
      obtain ⟨-, -, -, -, -, t, -, rfl⟩ := payRent_ok hex
      exact h
    | checkRentOverdue caller now lid =>
      obtain ⟨-, -, hs | ⟨d, rfl⟩⟩ := checkRentOverdue_ok hex
      · subst hs; exact h
      · exact h
    | fundMaintenance caller pid amount =>
      obtain ⟨-, -, t, -, rfl⟩ := fundMaintenance_ok hex
      exact h
    | requestMaintenance caller now pid descr cost =>
      obtain ⟨-, -, -, -, rfl⟩ := requestMaintenance_ok hex
      intro id hp
      by_cases hid : id = s.maintenanceCounter
      · subst hid; simp [Function.update]
      · simpa [Function.update_noteq hid] using h id
          (by simpa [Function.update_noteq hid] using hp)
    | approveMaintenance caller rid amount contractor =>
      obtain ⟨-, -, -, -, -, rfl⟩ := approveMaintenance_ok hex
      intro id hp
      by_cases hid : id = rid
      · subst hid; simp [Function.update] at hp
      · simpa [Function.update_noteq hid] using h id
          (by simpa [Function.update_noteq hid] using hp)
    | payMaintenanceContractor caller rid =>
      obtain ⟨-, -, -, t, -, rfl⟩ := payMaintenanceContractor_ok hex
      intro id hp
      by_cases hid : id = rid
      · subst hid; simp [Function.update] at hp
      · simpa [Function.update_noteq hid] using h id
          (by simpa [Function.update_noteq hid] using hp)
    | returnSecurityDeposit caller now lid ded =>
      obtain ⟨-, -, -, t₁, t₂, -, -, rfl⟩ := returnSecurityDeposit_ok hex
      exact h
    | setAIAgent caller agent auth =>
      obtain ⟨-, -, rfl⟩ := setAIAgent_ok hex
      exact h
    | pause caller =>
      obtain ⟨-, -, rfl⟩ := pause_ok hex
      exact h
    | unpause caller =>
      obtain ⟨-, -, rfl⟩ := unpause_ok hex
      exact h
    | externalToken t =>
      simp only [exec] at hex
      injection hex with hse
      subst hse
      exact h

/-- Every reachable state satisfies `PendingZero`. -/
theorem reachable_pendingZero {s : State} (h : Reachable s) : PendingZero s := by
  induction h with
  | init d tok => intro id hp; exact ⟨rfl, rfl⟩
  | step s op hs ih => exact pendingZero_run s op ih

/-- Counters never decrease: `maintenanceCounter` is monotone along `run`. -/
theorem maintenanceCounter_mono (s : State) (op : Op) :
    s.maintenanceCounter ≤ (run s op).maintenanceCounter := by
  cases hex : exec s op with
  | error e => simp [run, hex]
  | ok s' =>
    have hrun : run s op = s' := by simp [run, hex]
    rw [hrun]
    cases op with
    | registerProperty caller now rent dep =>
      obtain ⟨-, -, -, rfl⟩ := registerProperty_ok hex; exact Nat.le_refl _
    | deactivateProperty caller pid =>
      obtain ⟨-, rfl⟩ := deactivateProperty_ok hex; exact Nat.le_refl _
    | createLease caller now pid tenant start dur due =>
      obtain ⟨-, -, -, -, -, -, t, -, rfl⟩ := createLease_ok hex; exact Nat.le_refl _
    | payRent caller now lid =>
      obtain ⟨-, -, -, -, -, t, -, rfl⟩ := payRent_ok hex; exact Nat.le_refl _
    | checkRentOverdue caller now lid =>
      obtain ⟨-, -, hs | ⟨d, rfl⟩⟩ := checkRentOverdue_ok hex
      · subst hs; exact Nat.le_refl _
      · exact Nat.le_refl _
    | fundMaintenance caller pid amount =>
      obtain ⟨-, -, t, -, rfl⟩ := fundMaintenance_ok hex; exact Nat.le_refl _
    | requestMaintenance caller now pid descr cost =>
      obtain ⟨-, -, -, -, rfl⟩ := requestMaintenance_ok hex
      exact Nat.le_succ _
    | approveMaintenance caller rid amount contractor =>
      obtain ⟨-, -, -, -, -, rfl⟩ := approveMaintenance_ok hex; exact Nat.le_refl _
    | payMaintenanceContractor caller rid =>
      obtain ⟨-, -, -, t, -, rfl⟩ := payMaintenanceContractor_ok hex; exact Nat.le_refl _
    | returnSecurityDeposit caller now lid ded =>
      obtain ⟨-, -, -, t₁, t₂, -, -, rfl⟩ := returnSecurityDeposit_ok hex; exact Nat.le_refl _
    | setAIAgent caller agent auth =>
      obtain ⟨-, -, rfl⟩ := setAIAgent_ok hex; exact Nat.le_refl _
    | pause caller =>
      obtain ⟨-, -, rfl⟩ := pause_ok hex; exact Nat.le_refl _
    | unpause caller =>
      obtain ⟨-, -, rfl⟩ := unpause_ok hex; exact Nat.le_refl _
    | externalToken t =>
      simp only [exec] at hex
      injection hex with hse
      subst hse
      exact Nat.le_refl _

/-- A Completed request at an id already allocated by `requestMaintenance`
(`rid < maintenanceCounter`) stays Completed under every transaction. -/
theorem completed_absorbing (s : State) (op : Op) (rid : Nat)
    (hlt : rid < s.maintenanceCounter)
    (hc : (s.maintenanceRequests rid).status = .completed) :
    ((run s op).maintenanceRequests rid).status = .completed := by
  cases hex : exec s op with
  | error e => simpa [run, hex] using hc
  | ok s' =>
    have hrun : run s op = s' := by simp [run, hex]
    rw [hrun]
    cases op with
    | registerProperty caller now rent dep =>
      obtain ⟨-, -, -, rfl⟩ := registerProperty_ok hex; exact hc
    | deactivateProperty caller pid =>
      obtain ⟨-, rfl⟩ := deactivateProperty_ok hex; exact hc
    | createLease caller now pid tenant start dur due =>
      obtain ⟨-, -, -, -, -, -, t, -, rfl⟩ := createLease_ok hex; exact hc
    | payRent caller now lid =>
      obtain ⟨-, -, -, -, -, t, -, rfl⟩ := payRent_ok hex; exact hc
    | checkRentOverdue caller now lid =>
      obtain ⟨-, -, hs | ⟨d, rfl⟩⟩ := checkRentOverdue_ok hex
      · subst hs; exact hc
      · exact hc
    | fundMaintenance caller pid amount =>
      obtain ⟨-, -, t, -, rfl⟩ := fundMaintenance_ok hex; exact hc
    | requestMaintenance caller now pid descr cost =>
      obtain ⟨-, -, -, -, rfl⟩ := requestMaintenance_ok hex
      have hne : rid ≠ s.maintenanceCounter := Nat.ne_of_lt hlt
      simpa [Function.update_noteq hne] using hc
    | approveMaintenance caller rid' amount contractor =>
      obtain ⟨-, hpend, -, -, -, rfl⟩ := approveMaintenance_ok hex
      by_cases hid : rid = rid'
      · subst hid; rw [hc] at hpend; cases hpend
      · simpa [Function.update_noteq hid] using hc
    | payMaintenanceContractor caller rid' =>
      obtain ⟨-, -, -, t, -, rfl⟩ := payMaintenanceContractor_ok hex
      by_cases hid : rid = rid'
      · subst hid; simp [Function.update]
      · simpa [Function.update_noteq hid] using hc
    | returnSecurityDeposit caller now lid ded =>
      obtain ⟨-, -, -, t₁, t₂, -, -, rfl⟩ := returnSecurityDeposit_ok hex; exact hc
    | setAIAgent caller agent auth =>
      obtain ⟨-, -, rfl⟩ := setAIAgent_ok hex; exact hc
    | pause caller =>
      obtain ⟨-, -, rfl⟩ := pause_ok hex; exact hc
    | unpause caller =>
      obtain ⟨-, -, rfl⟩ := unpause_ok hex; exact hc
    | externalToken t =>
      simp only [exec] at hex
      injection hex with hse
      subst hse
      exact hc

/-- Completed-absorption extended to an arbitrary transaction sequence. -/
theorem completed_absorbing_many (ops : List Op) (s : State) (rid : Nat)
    (hlt : rid < s.maintenanceCounter)
    (hc : (s.maintenanceRequests rid).status = .completed) :
    ((ops.foldl run s).maintenanceRequests rid).status = .completed := by
  induction ops generalizing s with
  | nil => exact hc
  | cons op ops ih =>
    exact ih (run s op) (Nat.lt_of_lt_of_le hlt (maintenanceCounter_mono s op))
      (completed_absorbing s op rid hlt hc)

/-!
## Reachability of the concrete fixtures
-/

theorem dInit_reachable : Reachable dInit := .init 2 demoToken

theorem dProp_reachable : Reachable dProp := .step _ _ dInit_reachable

theorem dAgent_reachable : Reachable dAgent := .step _ _ dProp_reachable

theorem mReq_reachable : Reachable mReq := .step _ _ dAgent_reachable

/-- Payout refused when the request is not Approved (first guard). -/
theorem payMaintenanceContractor_not_approved (s : State) (caller rid : Nat)
    (h : ¬ (s.maintenanceRequests rid).status = .approved) :
    execOk (payMaintenanceContractor s caller rid) = false := by
  unfold payMaintenanceContractor
  rw [if_pos h]
  rfl

/-!
## The claims
-/

/-- C1: the per-property maintenance escrow balance is a non-negative
integer in every reachable state (it is a `Nat` in the model, and the
first conjunct shows a successful payout debits it exactly, with no
wrap-around, because the guard `approvedAmount ≤ maintenanceFunds` is
checked first), and a `payMaintenanceContractor` call on an Approved
request by an authorized caller whose stored `approvedAmount` exceeds the
property's escrow balance fails with `InsufficientFunds`, leaving the
escrow balance and the request's status (and all other state) unchanged. -/
theorem c1_escrow_never_negative (s : State) (caller rid : Nat) :
    (∀ s', payMaintenanceContractor s caller rid = .ok s' →
      (s.maintenanceRequests rid).approvedAmount ≤
        s.maintenanceFunds (s.maintenanceRequests rid).propertyId ∧
      s'.maintenanceFunds (s.maintenanceRequests rid).propertyId +
          (s.maintenanceRequests rid).approvedAmount =
        s.maintenanceFunds (s.maintenanceRequests rid).propertyId) ∧
    ((s.maintenanceRequests rid).status = .approved →
      (caller = (s.properties (s.maintenanceRequests rid).propertyId).owner ∨
        s.authorizedAIAgents caller = true) →
      s.maintenanceFunds (s.maintenanceRequests rid).propertyId <
        (s.maintenanceRequests rid).approvedAmount →
      payMaintenanceContractor s caller rid = .error .insufficientFunds ∧
      run s (.payMaintenanceContractor caller rid) = s) := by
  constructor
  · intro s' hex
    obtain ⟨-, -, hle, t, ht, rfl⟩ := payMaintenanceContractor_ok hex
    refine ⟨hle, ?_⟩
    simp [Function.update, Nat.sub_add_cancel hle]
  · intro happ hauth hlow
    have herr : payMaintenanceContractor s caller rid = .error .insufficientFunds := by
      unfold payMaintenanceContractor
      rw [if_neg (not_not_intro happ), if_neg (not_not_intro hauth),
        if_pos (by omega)]
    exact ⟨herr, by simp [run, exec, herr]⟩

/-- C1 witness: in the fixture `mApproved` request `0` is Approved for
150 but property `0`'s escrow holds 0, so the payout fails with
`InsufficientFunds` and the state is unchanged. -/
theorem c1_escrow_never_negative_witness :
    payMaintenanceContractor mApproved 3 0 = .error .insufficientFunds ∧
    run mApproved (.payMaintenanceContractor 3 0) = mApproved :=
  (c1_escrow_never_negative mApproved 3 0).2 rfl (Or.inl rfl) (by decide)

/-- C2: `approveMaintenance` never succeeds with an `approvedAmount` above
`500_000000` (the on-chain `500 * 10**6` cap), for any caller, state or
input; and on the path the spec describes — an authorized agent approving
a Pending request with a non-zero contractor — such a call fails with
`LimitExceeded`, leaving the state unchanged and the request Pending with
`approvedAmount` 0 and no contractor (the latter two by the reachable-state
invariant `PendingZero`). -/
theorem c2_approval_hard_cap (s : State) (caller rid amount contractor : Nat)
    (hcap : 500000000 < amount) :
    execOk (approveMaintenance s caller rid amount contractor) = false ∧
    (Reachable s → s.authorizedAIAgents caller = true →
      (s.maintenanceRequests rid).status = .pending → contractor ≠ 0 →
      approveMaintenance s caller rid amount contractor = .error .limitExceeded ∧
      run s (.approveMaintenance caller rid amount contractor) = s ∧
      ((run s (.approveMaintenance caller rid amount contractor)).maintenanceRequests
        rid).status = .pending ∧
      ((run s (.approveMaintenance caller rid amount contractor)).maintenanceRequests
        rid).approvedAmount = 0 ∧
      ((run s (.approveMaintenance caller rid amount contractor)).maintenanceRequests
        rid).contractor = 0) := by
  have hlimit : autoApprovalLimit = 500000000 := by norm_num [autoApprovalLimit]
  constructor
  · cases hex : approveMaintenance s caller rid amount contractor with
    | ok s' =>
      exfalso
      have := (approveMaintenance_ok hex).2.2.2.2.1
      omega
    | error e => rfl
  · intro hreach hagent hpend hcontr
    have herr : approveMaintenance s caller rid amount contractor =
        .error .limitExceeded := by
      unfold approveMaintenance
      rw [if_neg (not_not_intro hagent), if_neg (not_not_intro hpend),
        if_neg (by omega), if_neg hcontr, if_pos (by omega)]
    have hrun : run s (.approveMaintenance caller rid amount contractor) = s := by
      simp [run, exec, herr]
    rw [hrun]
    obtain ⟨hz, hcz⟩ := reachable_pendingZero hreach rid hpend
    exact ⟨herr, rfl, hpend, hz, hcz⟩

/-- C2 witness: in the reachable fixture `mReq` the agent `5` tries to
approve request `0` for 501 units (501000000); the call fails with
`LimitExceeded` and the request stays Pending with no amount and no
contractor. -/
theorem c2_approval_hard_cap_witness :
    execOk (approveMaintenance mReq 5 0 501000000 6) = false ∧
    (approveMaintenance mReq 5 0 501000000 6 = .error .limitExceeded ∧
      run mReq (.approveMaintenance 5 0 501000000 6) = mReq ∧
      ((run mReq (.approveMaintenance 5 0 501000000 6)).maintenanceRequests 0).status =
        .pending ∧
      ((run mReq (.approveMaintenance 5 0 501000000 6)).maintenanceRequests
        0).approvedAmount = 0 ∧
      ((run mReq (.approveMaintenance 5 0 501000000 6)).maintenanceRequests 0).contractor =
        0) :=
  ⟨(c2_approval_hard_cap mReq 5 0 501000000 6 (by decide)).1,
    (c2_approval_hard_cap mReq 5 0 501000000 6 (by decide)).2 mReq_reachable rfl rfl
      (by decide)⟩

/-- C3 counterexample: the claim "no operation ever moves a request out of
Completed" is false.  In the reachable fixture `ph3` (agent approved the
never-created request id 0, owner funded, payout ran) request `0` is
Completed while `maintenanceCounter` is still 0; the next genuine
`requestMaintenance` is allocated id 0 and overwrites the slot back to
Pending — after which it can be approved and paid a second time. -/
theorem c3_pay_once_counterexample :
    (ph3.maintenanceRequests 0).status = .completed ∧
    ph3.maintenanceCounter = 0 ∧
    execOk (exec ph3 (.requestMaintenance 3 0 0 "leak" 150)) = true ∧
    (ph4.maintenanceRequests 0).status = .pending := by
  exact ⟨rfl, rfl, rfl, rfl⟩

/-- C3 amended: `payMaintenanceContractor` succeeds only from Approved,
sets the request to Completed, debits the escrow by exactly the stored
`approvedAmount`, and any payout attempt on a Completed request fails; for
request ids actually allocated by `requestMaintenance`
(`rid < maintenanceCounter`) Completed is absorbing under any further
transaction sequence.  (For never-allocated ids — reachable because
`approveMaintenance` accepts them — a later `requestMaintenance` can
overwrite a Completed slot back to Pending, so the one-directionality in
the original claim fails there; see the counterexample.) -/
theorem c3_pay_once_amended (s : State) (caller rid : Nat) :
    (∀ s', payMaintenanceContractor s caller rid = .ok s' →
      (s.maintenanceRequests rid).status = .approved ∧
      (s'.maintenanceRequests rid).status = .completed ∧
      s'.maintenanceFunds (s.maintenanceRequests rid).propertyId +
          (s.maintenanceRequests rid).approvedAmount =
        s.maintenanceFunds (s.maintenanceRequests rid).propertyId ∧
      ∀ caller₂, execOk (payMaintenanceContractor s' caller₂ rid) = false) ∧
    (∀ ops : List Op, rid < s.maintenanceCounter →
      (s.maintenanceRequests rid).status = .completed →
      ((ops.foldl run s).maintenanceRequests rid).status = .completed ∧
      ∀ caller₂, execOk (payMaintenanceContractor (ops.foldl run s) caller₂ rid) = false) := by
  constructor
  · intro s' hex
    obtain ⟨happ, -, hle, t, ht, rfl⟩ := payMaintenanceContractor_ok hex
    refine ⟨happ, by simp [Function.update], ?_, ?_⟩
    · simp [Function.update, Nat.sub_add_cancel hle]
    · intro caller₂
      exact payMaintenanceContractor_not_approved _ caller₂ rid
        (by simp [Function.update])
  · intro ops hlt hc
    have habs := completed_absorbing_many ops s rid hlt hc
    exact ⟨habs, fun caller₂ =>
      payMaintenanceContractor_not_approved _ caller₂ rid (by simp [habs])⟩

/-- C3 witness: on the funded fixture, the payout of request `0` succeeds
exactly once — before: Approved; after: Completed, escrow debited by 150,
and both an immediate retry and a retry after a further transaction fail. -/
theorem c3_pay_once_witness :
    ((mFunded.maintenanceRequests 0).status = .approved ∧
      (mPaid.maintenanceRequests 0).status = .completed ∧
      mPaid.maintenanceFunds (mFunded.maintenanceRequests 0).propertyId +
          (mFunded.maintenanceRequests 0).approvedAmount =
        mFunded.maintenanceFunds (mFunded.maintenanceRequests 0).propertyId ∧
      execOk (payMaintenanceContractor mPaid 5 0) = false) ∧
    (([Op.requestMaintenance 3 0 0 "x" 5].foldl run mPaid).maintenanceRequests 0).status =
        .completed ∧
    execOk (payMaintenanceContractor
      ([Op.requestMaintenance 3 0 0 "x" 5].foldl run mPaid) 3 0) = false := by
  obtain ⟨h1, h2, h3, h4⟩ := (c3_pay_once_amended mFunded 3 0).1 mPaid rfl
  obtain ⟨h5, h6⟩ := (c3_pay_once_amended mPaid 3 0).2 [Op.requestMaintenance 3 0 0 "x" 5]
    (by decide) (by decide)
  exact ⟨⟨h1, h2, h3, h4 5⟩, h5, h6 3⟩

/-- C4 counterexample: the claim "once `securityDepositHeld` has reached 0
every subsequent call of `returnSecurityDeposit` on that lease fails" is
false.  In the reachable fixture `dReturned` the deposit of lease `0` has
been settled (`securityDepositHeld = 0`, status Completed), yet a second
call with `deductionAmount = 0` succeeds (as a fund-free re-emission of
the event) instead of failing. -/
theorem c4_one_shot_counterexample :
    (dReturned.leases 0).securityDepositHeld = 0 ∧
    (dReturned.leases 0).status = .completed ∧
    execOk (exec dReturned (.returnSecurityDeposit 3 2600000 0 0)) = true := by
  exact ⟨rfl, rfl, rfl⟩

/-- C4 amended: for every successful `returnSecurityDeposit` the tenant
return plus the owner deduction equals `securityDepositHeld` before the
call exactly (the deposit is zeroed, the lease Completed, and — for
pairwise-distinct tenant / owner / contract accounts — the tenant gains
`held − deduction`, the owner gains `deduction` and the contract pays out
exactly `held`); once `securityDepositHeld` is 0, every call with
`deductionAmount > 0` fails and every call that succeeds moves no funds:
a zero-deduction call still succeeds rather than failing, which is the
sole deviation from the original claim. -/
theorem c4_one_shot_amended (s : State) (caller now lid ded : Nat) :
    (∀ s', returnSecurityDeposit s caller now lid ded = .ok s' →
      ded ≤ (s.leases lid).securityDepositHeld ∧
      ((s.leases lid).securityDepositHeld - ded) + ded =
        (s.leases lid).securityDepositHeld ∧
      (s'.leases lid).securityDepositHeld = 0 ∧
      (s'.leases lid).status = .completed ∧
      ((s.leases lid).tenant ≠ contractAddr →
        (s.properties (s.leases lid).propertyId).owner ≠ contractAddr →
        (s.leases lid).tenant ≠ (s.properties (s.leases lid).propertyId).owner →
        s'.token.balances (s.leases lid).tenant =
          s.token.balances (s.leases lid).tenant +
            ((s.leases lid).securityDepositHeld - ded) ∧
        s'.token.balances (s.properties (s.leases lid).propertyId).owner =
          s.token.balances (s.properties (s.leases lid).propertyId).owner + ded ∧
        s'.token.balances contractAddr + (s.leases lid).securityDepositHeld =
          s.token.balances contractAddr)) ∧
    ((s.leases lid).securityDepositHeld = 0 →
      (0 < ded → execOk (returnSecurityDeposit s caller now lid ded) = false) ∧
      (∀ s', returnSecurityDeposit s caller now lid ded = .ok s' →
        s'.token = s.token)) := by
  constructor
  · intro s' hex
    obtain ⟨-, -, hle, t₁, t₂, h1, h2, rfl⟩ := returnSecurityDeposit_ok hex
    refine ⟨hle, Nat.sub_add_cancel hle, by simp [Function.update],
      by simp [Function.update], ?_⟩
    intro htc hoc hto
    have e₁ : t₁.balances (s.leases lid).tenant =
        s.token.balances (s.leases lid).tenant +
          ((s.leases lid).securityDepositHeld - ded) ∧
        t₁.balances (s.properties (s.leases lid).propertyId).owner =
          s.token.balances (s.properties (s.leases lid).propertyId).owner ∧
        t₁.balances contractAddr + ((s.leases lid).securityDepositHeld - ded) =
          s.token.balances contractAddr := by
      by_cases hR : 0 < (s.leases lid).securityDepositHeld - ded
      · rw [if_pos hR] at h1
        exact ⟨Token.transfer_some_balances_dst h1 (Ne.symm htc),
          Token.transfer_some_balances_other h1 hoc (Ne.symm hto),
          Token.transfer_some_balances_src h1 (Ne.symm htc)⟩
      · have hR0 : (s.leases lid).securityDepositHeld - ded = 0 := by omega
        rw [if_neg hR] at h1
        injection h1 with h1
        subst h1
        simp [hR0]
    have e₂ : t₂.balances (s.leases lid).tenant = t₁.balances (s.leases lid).tenant ∧
        t₂.balances (s.properties (s.leases lid).propertyId).owner =
          t₁.balances (s.properties (s.leases lid).propertyId).owner + ded ∧
        t₂.balances contractAddr + ded = t₁.balances contractAddr := by
      by_cases hd : 0 < ded
      · rw [if_pos hd] at h2
        exact ⟨Token.transfer_some_balances_other h2 htc hto,
          Token.transfer_some_balances_dst h2 (Ne.symm hoc),
          Token.transfer_some_balances_src h2 (Ne.symm hoc)⟩
      · have hd0 : ded = 0 := by omega
        rw [if_neg hd] at h2
        injection h2 with h2
        subst h2
        simp [hd0]
    obtain ⟨e1t, e1o, e1c⟩ := e₁
    obtain ⟨e2t, e2o, e2c⟩ := e₂
    refine ⟨?_, ?_, ?_⟩
    · show t₂.balances _ = _
      omega
    · show t₂.balances _ = _
      omega
    · show t₂.balances _ + _ = _
      omega
  · intro h0
    constructor
    · intro hded
      cases hex : returnSecurityDeposit s caller now lid ded with
      | ok s' =>
        exfalso
        have hle := (returnSecurityDeposit_ok hex).2.2.1
        omega
      | error e => rfl
    · intro s' hex
      obtain ⟨-, -, hle, t₁, t₂, h1, h2, rfl⟩ := returnSecurityDeposit_ok hex
      have hd0 : ded = 0 := by omega
      rw [if_neg (by omega)] at h1
      injection h1 with h1
      subst h1
      rw [if_neg (by omega)] at h2
      injection h2 with h2
      subst h2
      rfl

/-- C4 witness: the first settlement of lease `0` (no deduction, past the
lease end) pays the tenant the full 100-unit deposit and zeroes the hold;
on the settled state a call with deduction 1 fails, and the second
zero-deduction call (the one that succeeds) moves no funds. -/
theorem c4_one_shot_witness :
    ((dRent.leases 0).securityDepositHeld - 0) + 0 =
        (dRent.leases 0).securityDepositHeld ∧
    (dReturned.leases 0).securityDepositHeld = 0 ∧
    (dReturned.leases 0).status = .completed ∧
    (dReturned.token.balances (dRent.leases 0).tenant =
      dRent.token.balances (dRent.leases 0).tenant +
        ((dRent.leases 0).securityDepositHeld - 0)) ∧
    execOk (returnSecurityDeposit dReturned 3 2600000 0 1) = false ∧
    (∀ s', returnSecurityDeposit dReturned 3 2600000 0 0 = .ok s' →
      s'.token = dReturned.token) := by
  obtain ⟨-, h2, h3, h4, h5⟩ := (c4_one_shot_amended dRent 3 2600000 0 0).1 dReturned rfl
  obtain ⟨h6, h7, -⟩ := h5 (by decide) (by decide) (by decide)
  obtain ⟨h8, h9⟩ := (c4_one_shot_amended dReturned 3 2600000 0 1).2 rfl
  have h10 := ((c4_one_shot_amended dReturned 3 2600000 0 0).2 rfl).2
  exact ⟨h2, h3, h4, h6, h8 (by decide), h10⟩

/-- C5: `createLease` is all-or-nothing around the deposit pull: every
successful creation increases the contract's token balance by exactly the
property's `securityDeposit` and stores the lease Active with
`totalPaid = 0`, `lastPaymentDate = 0` and `securityDepositHeld` equal to
that deposit; and whenever every precondition holds but the tenant →
contract transfer fails, the call aborts with `FundsTransferFailed` and
the state is completely unchanged (no Lease record exists). -/
theorem c5_create_lease_atomic (s : State) (caller now pid tenant start dur due : Nat) :
    (∀ s', createLease s caller now pid tenant start dur due = .ok s' →
      (tenant ≠ contractAddr →
        s'.token.balances contractAddr =
          s.token.balances contractAddr + (s.properties pid).securityDeposit) ∧
      (s'.leases s.leaseCounter).status = .active ∧
      (s'.leases s.leaseCounter).totalPaid = 0 ∧
      (s'.leases s.leaseCounter).lastPaymentDate = 0 ∧
      (s'.leases s.leaseCounter).securityDepositHeld = (s.properties pid).securityDeposit ∧
      s'.leaseCounter = s.leaseCounter + 1) ∧
    ((s.properties pid).owner = caller → (s.properties pid).isActive = true →
      tenant ≠ 0 → now ≤ start → 0 < dur → dur ≤ 36 → 1 ≤ due → due ≤ 28 →
      s.token.transferFrom contractAddr tenant contractAddr
        (s.properties pid).securityDeposit = none →
      createLease s caller now pid tenant start dur due = .error .fundsTransferFailed ∧
      run s (.createLease caller now pid tenant start dur due) = s) := by
  constructor
  · intro s' hex
    obtain ⟨-, -, -, -, -, -, t, ht, rfl⟩ := createLease_ok hex
    refine ⟨fun htc => Token.transferFrom_some_balances_dst ht htc, ?_, ?_, ?_, ?_, rfl⟩
      <;> simp [Function.update]
  · intro ho ha htz hns hd1 hd2 hr1 hr2 hnone
    have herr : createLease s caller now pid tenant start dur due =
        .error .fundsTransferFailed := by
      unfold createLease
      rw [if_neg (not_not_intro ho), if_neg (by simp [ha]), if_neg htz,
        if_neg (not_not_intro hns), if_neg (not_not_intro ⟨hd1, hd2⟩),
        if_neg (not_not_intro ⟨hr1, hr2⟩), hnone]
    exact ⟨herr, by simp [run, exec, herr]⟩

/-- C5 witness: creating lease `0` on the fixture moves the 100-unit
deposit tenant `4` → contract and stores the expected Active record; the
same call for moneyless tenant `7` (whose allowance is 0) fails with
`FundsTransferFailed` and changes nothing. -/
theorem c5_create_lease_atomic_witness :
    (dLease.token.balances contractAddr =
      dAgent.token.balances contractAddr + (dAgent.properties 0).securityDeposit) ∧
    (dLease.leases dAgent.leaseCounter).status = .active ∧
    (dLease.leases dAgent.leaseCounter).totalPaid = 0 ∧
    (dLease.leases dAgent.leaseCounter).lastPaymentDate = 0 ∧
    (dLease.leases dAgent.leaseCounter).securityDepositHeld =
      (dAgent.properties 0).securityDeposit ∧
    (createLease dAgent 3 0 0 7 0 1 1 = .error .fundsTransferFailed ∧
      run dAgent (.createLease 3 0 0 7 0 1 1) = dAgent) := by
  obtain ⟨h1, h2, h3, h4, h5, -⟩ :=
    (c5_create_lease_atomic dAgent 3 0 0 4 0 1 1).1 dLease rfl
  exact ⟨h1 (by decide), h2, h3, h4, h5,
    (c5_create_lease_atomic dAgent 3 0 0 7 0 1 1).2 rfl rfl (by decide) (by decide)
      (by decide) (by decide) (by decide) (by decide) rfl⟩

/-- C6 counterexample: the claim's "the property owner's token balance
increases by the same sum" fails on a self-lease, which `createLease`
permits (owner `3` leases property `0` to itself).  A successful `payRent`
increases `totalPaid` by the 100-unit rent while the owner's balance does
not increase at all (the transfer is a self-transfer). -/
theorem c6_rent_accounting_counterexample :
    (selfLease.properties 0).owner = (selfLease.leases 0).tenant ∧
    (selfLease.properties 0).monthlyRent = 100 ∧
    (selfLease.leases 0).status = .active ∧
    execOk (exec selfLease (.payRent 3 0 0)) = true ∧
    (selfRent.leases 0).totalPaid = (selfLease.leases 0).totalPaid + 100 ∧
    selfRent.token.balances (selfLease.properties 0).owner =
      selfLease.token.balances (selfLease.properties 0).owner := by
  exact ⟨rfl, rfl, rfl, rfl, rfl, rfl⟩

/-- C6 amended: for every sequence of `payRent` calls on a lease whose
tenant, property owner and contract address are pairwise distinct (the
self-lease case is the sole exception, see the counterexample), there is a
`k` (the number of successful calls) such that `totalPaid` grows by
`k · monthlyRent`, the owner's balance grows by the same sum, and the
contract's token balance and the whole per-property escrow map are
untouched. -/
theorem c6_rent_accounting_amended (ops : List Op) (lid : Nat) :
    ∀ s : State,
    (∀ op ∈ ops, ∃ c n, op = Op.payRent c n lid) →
    (s.leases lid).tenant ≠ (s.properties (s.leases lid).propertyId).owner →
    (s.leases lid).tenant ≠ contractAddr →
    (s.properties (s.leases lid).propertyId).owner ≠ contractAddr →
    ∃ k : Nat,
      ((ops.foldl run s).leases lid).totalPaid =
        (s.leases lid).totalPaid +
          k * (s.properties (s.leases lid).propertyId).monthlyRent ∧
      (ops.foldl run s).token.balances (s.properties (s.leases lid).propertyId).owner =
        s.token.balances (s.properties (s.leases lid).propertyId).owner +
          k * (s.properties (s.leases lid).propertyId).monthlyRent ∧
      (ops.foldl run s).token.balances contractAddr = s.token.balances contractAddr ∧
      (ops.foldl run s).maintenanceFunds = s.maintenanceFunds ∧
      (ops.foldl run s).properties = s.properties ∧
      ((ops.foldl run s).leases lid).propertyId = (s.leases lid).propertyId ∧
      ((ops.foldl run s).leases lid).tenant = (s.leases lid).tenant := by
  induction ops with
  | nil =>
    intro s hops hto htc hoc
    exact ⟨0, by simp, by simp, rfl, rfl, rfl, rfl, rfl⟩
  | cons op rest ih =>
    intro s hops hto htc hoc
    obtain ⟨c, n, rfl⟩ := hops op (List.mem_cons_self op rest)
    have hrest : ∀ op ∈ rest, ∃ c n, op = Op.payRent c n lid :=
      fun op hop => hops op (List.mem_cons_of_mem _ hop)
    rw [List.foldl_cons]
    cases hex : exec s (.payRent c n lid) with
    | error e =>
      have hs₁ : run s (.payRent c n lid) = s := by simp [run, hex]
      rw [hs₁]
      exact ih s hrest hto htc hoc
    | ok s₁ =>
      have hs₁ : run s (.payRent c n lid) = s₁ := by simp [run, hex]
      rw [hs₁]
      obtain ⟨hp, hst, hcall, hsd, hed, t, ht, hlit⟩ := payRent_ok hex
      have hpid : (s₁.leases lid).propertyId = (s.leases lid).propertyId := by
        rw [hlit]; simp [Function.update]
      have hten : (s₁.leases lid).tenant = (s.leases lid).tenant := by
        rw [hlit]; simp [Function.update]
      have htp : (s₁.leases lid).totalPaid = (s.leases lid).totalPaid +
          (s.properties (s.leases lid).propertyId).monthlyRent := by
        rw [hlit]; simp [Function.update]
      have hprops : s₁.properties = s.properties := by rw [hlit]
      have hfunds : s₁.maintenanceFunds = s.maintenanceFunds := by rw [hlit]
      have htok : s₁.token = t := by rw [hlit]
      have hcne : c ≠ (s.properties (s.leases lid).propertyId).owner := by
        rw [hcall]; exact hto
      have howner : t.balances (s.properties (s.leases lid).propertyId).owner =
          s.token.balances (s.properties (s.leases lid).propertyId).owner +
            (s.properties (s.leases lid).propertyId).monthlyRent :=
        Token.transferFrom_some_balances_dst ht hcne
      have hcontract : t.balances contractAddr = s.token.balances contractAddr :=
        Token.transferFrom_some_balances_other ht
          (Ne.symm (by rw [hcall]; exact htc)) (Ne.symm hoc)
      have hrent : (s₁.properties (s₁.leases lid).propertyId).monthlyRent =
          (s.properties (s.leases lid).propertyId).monthlyRent := by
        rw [hprops, hpid]
      have hown_eq : (s₁.properties (s₁.leases lid).propertyId).owner =
          (s.properties (s.leases lid).propertyId).owner := by
        rw [hprops, hpid]
      obtain ⟨k, e1, e2, e3, e4, e5, e6, e7⟩ := ih s₁ hrest
        (by rw [hten, hprops, hpid]; exact hto)
        (by rw [hten]; exact htc)
        (by rw [hprops, hpid]; exact hoc)
      refine ⟨k + 1, ?_, ?_, ?_, ?_, ?_, ?_, ?_⟩
      · rw [e1, htp, hrent]
        ring
      · rw [hown_eq, hrent] at e2
        rw [e2, htok, howner]
        ring
      · rw [e3, htok, hcontract]
      · exact e4.trans hfunds
      · exact e5.trans hprops
      · exact e6.trans hpid
      · exact e7.trans hten

/-- C6 witness: one rent payment on the tenant-`4` lease — `totalPaid`'s
growth equals the owner's balance growth, and the contract balance and
escrow map are untouched. -/
theorem c6_rent_accounting_witness :
    (([Op.payRent 4 0 0].foldl run dLease).leases 0).totalPaid +
        dLease.token.balances (dLease.properties (dLease.leases 0).propertyId).owner =
      (dLease.leases 0).totalPaid +
        ([Op.payRent 4 0 0].foldl run dLease).token.balances
          (dLease.properties (dLease.leases 0).propertyId).owner ∧
    ([Op.payRent 4 0 0].foldl run dLease).token.balances contractAddr =
      dLease.token.balances contractAddr ∧
    ([Op.payRent 4 0 0].foldl run dLease).maintenanceFunds = dLease.maintenanceFunds := by
  obtain ⟨k, e1, e2, e3, e4, -⟩ := c6_rent_accounting_amended [Op.payRent 4 0 0] 0 dLease
    (by rintro op hop; rw [List.mem_singleton] at hop; subst hop; exact ⟨4, 0, rfl⟩)
    (by decide) (by decide) (by decide)
  exact ⟨by rw [e1, e2]; ring, e3, e4⟩

/-- C7 counterexample: the claim "every mutating entry point fails while
paused" is false.  In the reachable paused fixture `dPaused`, the owner's
`deactivateProperty` succeeds and mutates state (property `0` goes from
active to inactive); only `registerProperty` and `payRent` carry the
pause guard in the source. -/
theorem c7_pause_counterexample :
    dPaused.pausedFlag = true ∧
    (dPaused.properties 0).isActive = true ∧
    execOk (exec dPaused (.deactivateProperty 3 0)) = true ∧
    ((run dPaused (.deactivateProperty 3 0)).properties 0).isActive = false := by
  exact ⟨rfl, rfl, rfl, rfl⟩

/-- C7 amended: while the global pause switch is engaged, exactly the two
pause-guarded entry points — `registerProperty` and `payRent` — fail with
the pause error and leave the state unchanged, for every caller and input.
The remaining mutating entry points are not pause-gated (see the
counterexample); read/query access to the state is unaffected. -/
theorem c7_pause_amended (s : State) (hp : s.pausedFlag = true) :
    (∀ caller now rent dep,
      registerProperty s caller now rent dep = .error .enforcedPause ∧
      run s (.registerProperty caller now rent dep) = s) ∧
    (∀ caller now lid,
      payRent s caller now lid = .error .enforcedPause ∧
      run s (.payRent caller now lid) = s) := by
  constructor
  · intro caller now rent dep
    have herr : registerProperty s caller now rent dep = .error .enforcedPause := by
      unfold registerProperty
      rw [if_pos hp]
    exact ⟨herr, by simp [run, exec, herr]⟩
  · intro caller now lid
    have herr : payRent s caller now lid = .error .enforcedPause := by
      unfold payRent
      rw [if_pos hp]
    exact ⟨herr, by simp [run, exec, herr]⟩

/-- C7 witness: on the paused fixture both guarded entry points fail with
the pause error and change nothing. -/
theorem c7_pause_witness :
    (registerProperty dPaused 3 0 100 100 = .error .enforcedPause ∧
      run dPaused (.registerProperty 3 0 100 100) = dPaused) ∧
    (payRent dPaused 4 0 0 = .error .enforcedPause ∧
      run dPaused (.payRent 4 0 0) = dPaused) :=
  ⟨(c7_pause_amended dPaused rfl).1 3 0 100 100,
    (c7_pause_amended dPaused rfl).2 4 0 0⟩

/-- C8 counterexample: operations on never-allocated ids do not uniformly
fail.  In the reachable fixture `dAgent` no lease was ever created
(`leaseCounter = 0`), yet `checkRentOverdue` on lease id 7 succeeds (the
default record has status Active and `startDate` 0, so the 5-day test
passes) and emits an overdue signal for the phantom lease; likewise
`returnSecurityDeposit` on lease id 99 with deduction 0 succeeds and even
mutates state, writing a Completed record at the unallocated id. -/
theorem c8_unknown_id_counterexample :
    dAgent.leaseCounter = 0 ∧
    execOk (exec dAgent (.checkRentOverdue 5 500000 7)) = true ∧
    (run dAgent (.checkRentOverdue 5 500000 7)).events.head? =
      some (.rentOverdue 7 (500000 / 86400)) ∧
    execOk (exec dAgent (.returnSecurityDeposit 5 10 99 0)) = true ∧
    ((run dAgent (.returnSecurityDeposit 5 10 99 0)).leases 99).status = .completed := by
  exact ⟨rfl, rfl, rfl, rfl, rfl⟩

/-- C8 amended: an id that was never allocated denotes the zero record,
and the contract does not check existence: on a zero lease record (status
Active — enum value 0 — and all fields 0), `checkRentOverdue` by an agent
succeeds once `now` exceeds 5 days, emitting `RentOverdue` with
`now / 86400` days, rather than failing with `NotFound`; `payRent` on such
a record fails only incidentally, because the zero record's tenant is the
zero address and no real caller is address 0. -/
theorem c8_unknown_id_amended (s : State) (caller now lid : Nat)
    (hdef : s.leases lid = ⟨0, 0, 0, 0, 0, 0, 0, .active, 0⟩) :
    (s.authorizedAIAgents caller = true → 5 * 86400 < now →
      checkRentOverdue s caller now lid =
        .ok { s with events := .rentOverdue lid (now / 86400) :: s.events }) ∧
    (caller ≠ 0 → execOk (payRent s caller now lid) = false) := by
  constructor
  · intro hagent hnow
    unfold checkRentOverdue
    rw [hdef]
    simp [hagent, hnow]
  · intro hcaller
    unfold payRent
    by_cases hpse : s.pausedFlag = true
    · rw [if_pos hpse]; rfl
    · rw [if_neg hpse, if_neg (not_not_intro (by rw [hdef])),
        if_pos (by rw [hdef]; exact hcaller)]
      rfl

/-- C8 witness: in `dAgent` (no lease ever created) lease id 7 holds the
zero record; agent `5`'s `checkRentOverdue` at time 500000 succeeds and
emits, and `payRent` by caller `5` fails. -/
theorem c8_unknown_id_witness :
    (checkRentOverdue dAgent 5 500000 7 =
      .ok { dAgent with events := .rentOverdue 7 (500000 / 86400) :: dAgent.events }) ∧
    execOk (payRent dAgent 5 500000 7) = false :=
  ⟨(c8_unknown_id_amended dAgent 5 500000 7 rfl).1 rfl (by decide),
    (c8_unknown_id_amended dAgent 5 500000 7 rfl).2 (by decide)⟩

/-- C9: `checkRentOverdue` is side-effect-free on state — for every state,
caller, time and lease id it leaves every storage component (properties,
leases, maintenance requests, escrow balances, indexes, agent set,
counters, owner, pause flag, token ledger) exactly as it was, emitting at
most an advisory event; and it emits per the stated rule: never-paid
leases signal `(now − startDate) / 1 day` once `now > startDate + 5 days`,
previously-paid leases signal `daysSincePayment − 30` once
`daysSincePayment > 35`. -/
theorem c9_check_overdue_frame (s : State) (caller now lid : Nat) :
    ((run s (.checkRentOverdue caller now lid)).properties = s.properties ∧
      (run s (.checkRentOverdue caller now lid)).leases = s.leases ∧
      (run s (.checkRentOverdue caller now lid)).maintenanceRequests =
        s.maintenanceRequests ∧
      (run s (.checkRentOverdue caller now lid)).maintenanceFunds = s.maintenanceFunds ∧
      (run s (.checkRentOverdue caller now lid)).token = s.token ∧
      (run s (.checkRentOverdue caller now lid)).ownerProperties = s.ownerProperties ∧
      (run s (.checkRentOverdue caller now lid)).tenantLeases = s.tenantLeases ∧
      (run s (.checkRentOverdue caller now lid)).authorizedAIAgents =
        s.authorizedAIAgents ∧
      (run s (.checkRentOverdue caller now lid)).propertyCounter = s.propertyCounter ∧
      (run s (.checkRentOverdue caller now lid)).leaseCounter = s.leaseCounter ∧
      (run s (.checkRentOverdue caller now lid)).maintenanceCounter =
        s.maintenanceCounter ∧
      (run s (.checkRentOverdue caller now lid)).contractOwner = s.contractOwner ∧
      (run s (.checkRentOverdue caller now lid)).pausedFlag = s.pausedFlag) ∧
    (s.authorizedAIAgents caller = true → (s.leases lid).status = .active →
      (s.leases lid).lastPaymentDate = 0 →
      (s.leases lid).startDate + 5 * 86400 < now →
      checkRentOverdue s caller now lid =
        .ok { s with
          events := .rentOverdue lid ((now - (s.leases lid).startDate) / 86400) ::
            s.events }) ∧
    (s.authorizedAIAgents caller = true → (s.leases lid).status = .active →
      0 < (s.leases lid).lastPaymentDate → (s.leases lid).lastPaymentDate ≤ now →
      35 < (now - (s.leases lid).lastPaymentDate) / 86400 →
      checkRentOverdue s caller now lid =
        .ok { s with
          events :=
            .rentOverdue lid ((now - (s.leases lid).lastPaymentDate) / 86400 - 30) ::
              s.events }) := by
  refine ⟨?_, ?_, ?_⟩
  · cases hex : exec s (.checkRentOverdue caller now lid) with
    | error e =>
      have hr : run s (.checkRentOverdue caller now lid) = s := by simp [run, hex]
      rw [hr]
      exact ⟨rfl, rfl, rfl, rfl, rfl, rfl, rfl, rfl, rfl, rfl, rfl, rfl, rfl⟩
    | ok s' =>
      have hr : run s (.checkRentOverdue caller now lid) = s' := by simp [run, hex]
      rw [hr]
      obtain ⟨-, -, hs | ⟨d, rfl⟩⟩ := checkRentOverdue_ok hex
      · subst hs
        exact ⟨rfl, rfl, rfl, rfl, rfl, rfl, rfl, rfl, rfl, rfl, rfl, rfl, rfl⟩
      · exact ⟨rfl, rfl, rfl, rfl, rfl, rfl, rfl, rfl, rfl, rfl, rfl, rfl, rfl⟩
  · intro hagent hactive hlast hwin
    unfold checkRentOverdue
    rw [if_neg (not_not_intro hagent), if_neg (not_not_intro hactive),
      if_pos ⟨hlast, hwin⟩]
  · intro hagent hactive hlast hle h35
    unfold checkRentOverdue
    rw [if_neg (not_not_intro hagent), if_neg (not_not_intro hactive),
      if_neg (by omega), if_pos hlast, if_neg (by omega), if_pos h35]

/-- C9 witness: the never-paid branch fires on the phantom lease 7 of
`dAgent` at time 500000, and the 35-day branch fires on lease 0 of
`dRentLate` (paid at 86400) at time 3196800 (36 days later), emitting
`36 − 30` days past due; both calls leave all storage unchanged. -/
theorem c9_check_overdue_frame_witness :
    (run dAgent (.checkRentOverdue 5 500000 7)).leases = dAgent.leases ∧
    (run dAgent (.checkRentOverdue 5 500000 7)).token = dAgent.token ∧
    (checkRentOverdue dAgent 5 500000 7 =
      .ok { dAgent with
        events := .rentOverdue 7 ((500000 - (dAgent.leases 7).startDate) / 86400) ::
          dAgent.events }) ∧
    (checkRentOverdue dRentLate 5 3196800 0 =
      .ok { dRentLate with
        events :=
          .rentOverdue 0 ((3196800 - (dRentLate.leases 0).lastPaymentDate) / 86400 - 30) ::
            dRentLate.events }) :=
  ⟨(c9_check_overdue_frame dAgent 5 500000 7).1.2.1,
    (c9_check_overdue_frame dAgent 5 500000 7).1.2.2.2.2.1,
    (c9_check_overdue_frame dAgent 5 500000 7).2.1 rfl rfl rfl (by decide),
    (c9_check_overdue_frame dRentLate 5 3196800 0).2.2 rfl rfl (by decide) (by decide)
      (by decide)⟩

/-- C10: `payRent`'s preconditions are independent of the property's
`isActive` flag: on an Active, in-term lease, with the contract not
paused and the tenant calling with sufficient balance and allowance, the
payment succeeds and credits `totalPaid` — even when the lease's property
has `isActive = false` (the hypothesis below), as after
`deactivateProperty`. -/
theorem c10_pay_rent_on_deactivated (s : State) (caller now lid : Nat)
    (hpause : s.pausedFlag = false)
    (hstatus : (s.leases lid).status = .active)
    (hten : caller = (s.leases lid).tenant)
    (hstart : (s.leases lid).startDate ≤ now)
    (hend : now ≤ (s.leases lid).endDate)
    (hinactive : (s.properties (s.leases lid).propertyId).isActive = false)
    (hallow : (s.properties (s.leases lid).propertyId).monthlyRent ≤
      s.token.allowance caller contractAddr)
    (hbal : (s.properties (s.leases lid).propertyId).monthlyRent ≤
      s.token.balances caller) :
    execOk (payRent s caller now lid) = true ∧
    ∃ s', payRent s caller now lid = .ok s' ∧
      (s'.leases lid).totalPaid = (s.leases lid).totalPaid +
        (s.properties (s.leases lid).propertyId).monthlyRent := by
  have htf : ∃ t, s.token.transferFrom contractAddr caller
      (s.properties (s.leases lid).propertyId).owner
      (s.properties (s.leases lid).propertyId).monthlyRent = some t := by
    unfold Token.transferFrom
    rw [if_pos ⟨hallow, hbal⟩]
    exact ⟨_, rfl⟩
  obtain ⟨t, htf⟩ := htf
  unfold payRent
  rw [if_neg (by simp [hpause]), if_neg (not_not_intro hstatus),
    if_neg (not_not_intro hten), if_neg (not_not_intro hstart),
    if_neg (not_not_intro hend), htf]
  exact ⟨rfl, _, rfl, by simp [Function.update]⟩

/-- C10 witness: after the owner deactivates property `0` mid-lease
(fixture `dDeactivated`), tenant `4` still pays rent successfully and
`totalPaid` grows by the 100-unit rent. -/
theorem c10_pay_rent_on_deactivated_witness :
    (dDeactivated.properties 0).isActive = false ∧
    execOk (payRent dDeactivated 4 0 0) = true ∧
    ∃ s', payRent dDeactivated 4 0 0 = .ok s' ∧
      (s'.leases 0).totalPaid = (dDeactivated.leases 0).totalPaid +
        (dDeactivated.properties (dDeactivated.leases 0).propertyId).monthlyRent := by
  obtain ⟨h1, h2⟩ := c10_pay_rent_on_deactivated dDeactivated 4 0 0 rfl rfl rfl
    (by decide) (by decide) rfl (by decide) (by decide)
  exact ⟨rfl, h1, h2⟩

end RentFlow
